import Mathlib

/-!
Shallow embedding of the udsonip core (connection adapter, discovery
service, multi-ECU registry) and proofs of its specified properties.

Python integers are modelled as `Int` (logical addresses can in principle
be any integer at the call sites under scrutiny); payload byte strings as
`List Nat`; Python dictionaries as association lists whose lookup returns
the first matching key; the external DoIP transport as an explicit event
or outcome parameter together with a log of the calls made against it.
-/

namespace UdsOnIp

/-- Error kinds raised by the library (exceptions.py), each carrying its
message string. -/
inductive UdsErr where
  | connectionError (msg : String)
  | addressSwitchError (msg : String)
  | discoveryError (msg : String)
  | ecuNotFoundError (msg : String)
deriving DecidableEq, Repr

/-- State of a `DoIPUDSConnection` (connection.py): the mutable
`_target_address` field and the `_opened` flag. The wrapped transport
handle is modelled separately as a log of sends. -/
structure DoIPUDSConnection where
  target_address : Int
  opened : Bool
deriving DecidableEq, Repr

/-- Constructor `DoIPUDSConnection.__init__` (connection.py line 31-35).
The initial target is computed by the Python expression
`target_address or doip_client._ecu_logical_address`: a `None` argument
and an explicit `0` are both falsy, so both select the transport handle
default; any other integer is used as given. -/
def DoIPUDSConnection.init (ecu_logical_address : Int)
    (target_address : Option Int) : DoIPUDSConnection :=
  { target_address :=
      match target_address with
      | none => ecu_logical_address
      | some t => if t = 0 then ecu_logical_address else t
    opened := false }

/-- The `target_address` setter on `DoIPUDSConnection` (connection.py
lines 42-51): stores the value and logs; it performs no range check and
raises nothing for any integer input. -/
def DoIPUDSConnection.setTargetAddress (c : DoIPUDSConnection)
    (value : Int) : DoIPUDSConnection :=
  { c with target_address := value }

/-- The `open` method (connection.py lines 53-59): marks the adapter
opened; idempotent. -/
def DoIPUDSConnection.openConn (c : DoIPUDSConnection) : DoIPUDSConnection :=
  { c with opened := true }

/-- The `close` method (connection.py lines 61-65): marks the adapter
closed; idempotent. -/
def DoIPUDSConnection.closeConn (c : DoIPUDSConnection) : DoIPUDSConnection :=
  { c with opened := false }

/-- The `target_address` setter on `DoIPUDSClient` (client.py lines
85-100): delegates to the connection setter inside a try/except that
would wrap a raised exception into `AddressSwitchError`. The inner setter
cannot raise for an integer argument, so the result is always a success
carrying the updated connection. -/
def DoIPUDSClient.setTargetAddress (c : DoIPUDSConnection)
    (value : Int) : Except UdsErr DoIPUDSConnection :=
  Except.ok (c.setTargetAddress value)

/-- Record of the calls made against the shared transport handle:
each diagnostic send it was asked to perform, as (target address,
payload) in order. -/
structure TransportLog where
  sends : List (Int × List Nat)
deriving DecidableEq, Repr

/-- The `specific_send` method (connection.py lines 67-80): forwards the
payload to `self._doip.send_diagnostic_to_address(self._target_address,
bytearray(payload))`, i.e. appends one send tagged with the current
target to the transport log. -/
def specific_send (c : DoIPUDSConnection) (tr : TransportLog)
    (payload : List Nat) : TransportLog :=
  { tr with sends := tr.sends ++ [(c.target_address, payload)] }

/-- Claim C3: for every valid 16-bit address `a` and payload `p`, setting
the target to `a` and then sending `p` appends exactly the record `(a, p)`
to the transport log — the payload is tagged with `a`, and the target
change applies to the very next send. -/
theorem setTarget_then_send_routes (c : DoIPUDSConnection)
    (tr : TransportLog) (a : Int) (p : List Nat)
    (h0 : 0 ≤ a) (h1 : a ≤ 0xFFFF) :
    (specific_send (c.setTargetAddress a) tr p).sends = tr.sends ++ [(a, p)] :=
  rfl

/-- Witness for C3 at a concrete connection, address 0x00E1 and a
two-byte payload. -/
theorem setTarget_then_send_routes_w :
    (0 : Int) ≤ 0x00E1 ∧ (0x00E1 : Int) ≤ 0xFFFF ∧
    (specific_send (DoIPUDSConnection.setTargetAddress ⟨0x00E0, true⟩ 0x00E1)
        ⟨[]⟩ [0x10, 0x01]).sends = [] ++ [((0x00E1 : Int), [0x10, 0x01])] :=
  ⟨by decide, by decide,
    setTarget_then_send_routes ⟨0x00E0, true⟩ ⟨[]⟩ 0x00E1 [0x10, 0x01]
      (by decide) (by decide)⟩

/-- Claim C1, evaluation of the code at the failing input: switching the
target to 0x10000 (outside the 16-bit range) through either the
connection-level or the client-level setter succeeds and stores 0x10000
as the current target; no `AddressSwitchError` is raised and the previous
value 0x00E0 is not retained. -/
theorem set_target_out_of_range_stored :
    DoIPUDSConnection.setTargetAddress ⟨0x00E0, true⟩ 0x10000 = ⟨0x10000, true⟩ ∧
    DoIPUDSClient.setTargetAddress ⟨0x00E0, true⟩ 0x10000 =
      Except.ok ⟨0x10000, true⟩ :=
  ⟨rfl, rfl⟩

/-- Claim C10: constructing a connection with an explicit initial target
of 0 falls back to the transport handle default (Python truthiness on the
`or` expression), while every non-zero explicit target is stored as
given. -/
theorem init_target_truthiness (d v : Int) (hv : v ≠ 0) :
    (DoIPUDSConnection.init d (some 0)).target_address = d ∧
    (DoIPUDSConnection.init d (some v)).target_address = v := by
  refine ⟨rfl, ?_⟩
  simp [DoIPUDSConnection.init, hv]

/-- Witness for C10 at default 0x00E0 and explicit target 0x00E1. -/
theorem init_target_truthiness_w :
    (0x00E1 : Int) ≠ 0 ∧
    (DoIPUDSConnection.init 0x00E0 (some 0)).target_address = 0x00E0 ∧
    (DoIPUDSConnection.init 0x00E0 (some 0x00E1)).target_address = 0x00E1 :=
  ⟨by decide, init_target_truthiness 0x00E0 0x00E1 (by decide)⟩

/-- Fields of a vehicle announcement message as consumed by discovery.py
(`announcement.logical_address`, `.eid`, `.gid`,
`.further_action_code`). -/
structure Announcement where
  logical_address : Int
  eid : Option (List Nat)
  gid : Option (List Nat)
  further_action_code : Option Int
deriving DecidableEq, Repr

/-- The `ECUInfo` dataclass (discovery.py lines 13-29). -/
structure ECUInfo where
  ip : String
  logical_address : Int
  eid : Option (List Nat)
  gid : Option (List Nat)
  further_action : Option Int
deriving DecidableEq, Repr

/-- Conversion of a received announcement (with its source ip) into an
`ECUInfo`, exactly as built at discovery.py lines 110-116 and 164-170. -/
def ECUInfo.ofAnnouncement (ip : String) (a : Announcement) : ECUInfo :=
  { ip := ip, logical_address := a.logical_address, eid := a.eid,
    gid := a.gid, further_action := a.further_action_code }

/-- Outcome of one `DoIPClient.await_vehicle_announcement` call inside
the discovery loop: an announcement from some source ip, a per-slice
timeout (`TimeoutError`), or any other fault. A discovery run is driven
by the finite list of such outcomes occurring within the time budget. -/
inductive ListenEvent where
  | announce (src_ip : String) (a : Announcement)
  | timeoutSlice
  | fault (msg : String)
deriving DecidableEq, Repr

/-- Whether a listen event is a non-timeout fault. -/
def ListenEvent.isFault : ListenEvent → Bool
  | ListenEvent.fault _ => true
  | _ => false

/-- Calls that discovery could make against the transport layer. -/
inductive TransportCall where
  | broadcastIdentification
  | awaitAnnouncement
deriving DecidableEq, Repr

/-- The loop body of `discover_ecus` (discovery.py lines 89-128): each
iteration awaits one announcement; a `TimeoutError` continues the loop; a
received announcement is appended to the accumulator only when its
(ip, logical_address) pair is not in the seen set; any other fault is
wrapped as a `DiscoveryError` (once by the inner handler at line 126 and
again by the outer handler at line 131). -/
def discoverLoop : List ListenEvent → List ECUInfo → List (String × Int) →
    Except UdsErr (List ECUInfo)
  | [], acc, _ => Except.ok acc
  | ListenEvent.timeoutSlice :: rest, acc, seen => discoverLoop rest acc seen
  | ListenEvent.fault m :: _, _, _ =>
      Except.error (UdsErr.discoveryError
        ("ECU discovery failed: Error during ECU announcement: " ++ m))
  | ListenEvent.announce ip a :: rest, acc, seen =>
      if (ip, a.logical_address) ∈ seen then
        discoverLoop rest acc seen
      else
        discoverLoop rest (acc ++ [ECUInfo.ofAnnouncement ip a])
          ((ip, a.logical_address) :: seen)

/-- `discover_ecus` (discovery.py lines 58-131): starts the listen loop
with empty result list and empty seen set. The source performs no other
transport interaction before or after the loop. -/
def discover_ecus (events : List ListenEvent) : Except UdsErr (List ECUInfo) :=
  discoverLoop events [] []

/-- The transport calls `discover_ecus` makes during a run driven by the
given listen outcomes: one `await_vehicle_announcement` per loop
iteration, the loop stopping after a fault; no other transport call
appears anywhere in the function. -/
def discoverCalls : List ListenEvent → List TransportCall
  | [] => []
  | ListenEvent.fault _ :: _ => [TransportCall.awaitAnnouncement]
  | _ :: rest => TransportCall.awaitAnnouncement :: discoverCalls rest

/-- De-duplication key of a descriptor: its (ip, logical_address) pair. -/
def ecuKey (e : ECUInfo) : String × Int := (e.ip, e.logical_address)

/-- First-seen de-duplication, written from the specification text: keep
each descriptor and drop every later descriptor carrying the same
(ip, logical_address) key; order is first-seen order. -/
def firstSeenDedup : List ECUInfo → List ECUInfo
  | [] => []
  | e :: rest =>
      e :: (firstSeenDedup rest).filter (fun x => decide (ecuKey x ≠ ecuKey e))

/-- The descriptors carried by the announcement events of a run, in
arrival order, before any de-duplication. -/
def announcedEcus : List ListenEvent → List ECUInfo
  | [] => []
  | ListenEvent.announce ip a :: rest =>
      ECUInfo.ofAnnouncement ip a :: announcedEcus rest
  | _ :: rest => announcedEcus rest

/-- The seen-set formulation of de-duplication, mirroring the state the
source loop threads through its iterations. -/
def dedupSeen : List ECUInfo → List (String × Int) → List ECUInfo
  | [], _ => []
  | e :: rest, seen =>
      if ecuKey e ∈ seen then dedupSeen rest seen
      else e :: dedupSeen rest (ecuKey e :: seen)

theorem discoverLoop_eq_dedupSeen (events : List ListenEvent)
    (acc : List ECUInfo) (seen : List (String × Int))
    (hff : ∀ e ∈ events, e.isFault = false) :
    discoverLoop events acc seen =
      Except.ok (acc ++ dedupSeen (announcedEcus events) seen) := by
  induction events generalizing acc seen with
  | nil => simp [discoverLoop, announcedEcus, dedupSeen]
  | cons ev rest ih =>
    have hr : ∀ e ∈ rest, e.isFault = false :=
      fun e he => hff e (List.mem_cons_of_mem _ he)
    cases ev with
    | announce ip a =>
      have hkey : ecuKey (ECUInfo.ofAnnouncement ip a) = (ip, a.logical_address) := rfl
      by_cases h : (ip, a.logical_address) ∈ seen
      · simp only [discoverLoop, announcedEcus, dedupSeen, hkey, if_pos h]
        exact ih acc seen hr
      · simp only [discoverLoop, announcedEcus, dedupSeen, hkey, if_neg h]
        rw [ih (acc ++ [ECUInfo.ofAnnouncement ip a])
              ((ip, a.logical_address) :: seen) hr]
        simp
    | timeoutSlice =>
      simp only [discoverLoop, announcedEcus]
      exact ih acc seen hr
    | fault m =>
      exfalso
      have := hff (ListenEvent.fault m) (List.mem_cons_self _ _)
      simp [ListenEvent.isFault] at this

theorem dedupSeen_eq_filter (l : List ECUInfo) (seen : List (String × Int)) :
    dedupSeen l seen =
      (firstSeenDedup l).filter (fun x => !decide (ecuKey x ∈ seen)) := by
  induction l generalizing seen with
  | nil => simp [dedupSeen, firstSeenDedup]
  | cons e rest ih =>
    simp only [dedupSeen, firstSeenDedup, List.filter_cons, List.filter_filter,
      decide_not]
    by_cases h : ecuKey e ∈ seen
    · rw [if_pos h, if_neg (by simp [h]), ih seen]
      apply List.filter_congr
      intro x _
      by_cases hx : ecuKey x ∈ seen
      · simp [hx]
      · have hne : ecuKey x ≠ ecuKey e := fun heq => hx (heq ▸ h)
        simp [hx, hne]
    · rw [if_neg h, if_pos (by simp [h]), ih (ecuKey e :: seen)]
      refine congrArg (e :: ·) ?_
      apply List.filter_congr
      intro x _
      by_cases hx1 : ecuKey x = ecuKey e
      · simp [List.mem_cons, hx1]
      · by_cases hx2 : ecuKey x ∈ seen <;> simp [List.mem_cons, hx1, hx2]

/-- Claim C5: for every fault-free run, `discover_ecus` returns exactly
the first-seen de-duplication of the announced descriptors — a
descriptor enters the result only when its (ip, logical_address) pair
has not been seen earlier, repeated announcements for one pair yield a
single descriptor, and the order is first-seen order. -/
theorem discover_first_seen_dedup (events : List ListenEvent)
    (hff : ∀ e ∈ events, e.isFault = false) :
    discover_ecus events = Except.ok (firstSeenDedup (announcedEcus events)) := by
  rw [discover_ecus, discoverLoop_eq_dedupSeen _ _ _ hff, dedupSeen_eq_filter]
  simp

/-- Witness for C5: three identical announcements for
(ip = 10.0.0.5, logical_address = 0x3001) yield exactly one
descriptor. -/
theorem discover_first_seen_dedup_w :
    discover_ecus
        [ListenEvent.announce "10.0.0.5" ⟨0x3001, none, none, none⟩,
         ListenEvent.announce "10.0.0.5" ⟨0x3001, none, none, none⟩,
         ListenEvent.announce "10.0.0.5" ⟨0x3001, none, none, none⟩] =
      Except.ok [ECUInfo.ofAnnouncement "10.0.0.5" ⟨0x3001, none, none, none⟩] :=
  (discover_first_seen_dedup _ (by decide)).trans (by rfl)

/-- Claim C2, evaluation of the code: a discovery run never performs a
broadcast — its transport calls are awaits only — while a passive
announcement for (ip = 10.0.0.9, logical_address = 0x2001) arriving
before the timeout is still returned. The source contains no
identification-request broadcast at all, so no broadcast-failure path
exists either. -/
theorem discover_makes_no_broadcast :
    discoverCalls
        [ListenEvent.announce "10.0.0.9" ⟨0x2001, none, none, none⟩,
         ListenEvent.timeoutSlice] =
      [TransportCall.awaitAnnouncement, TransportCall.awaitAnnouncement] ∧
    TransportCall.broadcastIdentification ∉
      discoverCalls
        [ListenEvent.announce "10.0.0.9" ⟨0x2001, none, none, none⟩,
         ListenEvent.timeoutSlice] ∧
    discover_ecus
        [ListenEvent.announce "10.0.0.9" ⟨0x2001, none, none, none⟩,
         ListenEvent.timeoutSlice] =
      Except.ok [ECUInfo.ofAnnouncement "10.0.0.9" ⟨0x2001, none, none, none⟩] :=
  ⟨rfl, by decide, rfl⟩

/-- Outcome of the single direct `DoIPClient.get_entity` query made by
`get_entity` (discovery.py lines 155-160): a response from some source
ip, a `TimeoutError`, or any other fault. -/
inductive ProbeOutcome where
  | success (src_ip : String) (a : Announcement)
  | timeout
  | fault (msg : String)
deriving DecidableEq, Repr

/-- `get_entity` (discovery.py lines 134-174): builds an `ECUInfo` from a
response, returns `None` on `TimeoutError`, and wraps every other fault
into a `DiscoveryError`. -/
def get_entity (ip : String) (outcome : ProbeOutcome) :
    Except UdsErr (Option ECUInfo) :=
  match outcome with
  | ProbeOutcome.success src a => Except.ok (some (ECUInfo.ofAnnouncement src a))
  | ProbeOutcome.timeout => Except.ok none
  | ProbeOutcome.fault m =>
      Except.error (UdsErr.discoveryError
        ("Failed to get entity info from " ++ ip ++ ": " ++ m))

/-- Claim C8: a per-probe timeout is a normal not-found outcome (`None`,
no error), every non-timeout fault surfaces as a `DiscoveryError`
wrapping the cause, and a response yields the entity descriptor. -/
theorem get_entity_timeout_not_error (ip m src : String) (a : Announcement) :
    get_entity ip ProbeOutcome.timeout = Except.ok none ∧
    get_entity ip (ProbeOutcome.fault m) =
      Except.error (UdsErr.discoveryError
        ("Failed to get entity info from " ++ ip ++ ": " ++ m)) ∧
    get_entity ip (ProbeOutcome.success src a) =
      Except.ok (some (ECUInfo.ofAnnouncement src a)) :=
  ⟨rfl, rfl, rfl⟩

/-- State of a `DoIPMultiECUClient` (multi_ecu.py): the name-to-address
registry `_ecus`, the per-name caches `_connections` and `_clients`,
whether the shared `_doip` handle has been created, and the `_connected`
flag. Python dictionaries are modelled as association lists whose lookup
returns the first matching key. Object identity of the cached clients and
connections is modelled by tagging each construction with a fresh number
drawn from an allocation counter `nextId`: two objects are the same
Python object exactly when they carry the same tag. -/
structure MultiState where
  ecus : List (String × Int)
  connections : List (String × (Nat × DoIPUDSConnection))
  clients : List (String × Nat)
  doipCreated : Bool
  connected : Bool
  nextId : Nat
deriving DecidableEq, Repr

/-- `DoIPMultiECUClient.__init__` (multi_ecu.py lines 39-60): empty
registry, empty caches, no transport handle, not connected. -/
def MultiState.init : MultiState :=
  { ecus := [], connections := [], clients := [], doipCreated := false,
    connected := false, nextId := 0 }

/-- `add_ecu` (multi_ecu.py lines 62-75): dictionary insert-or-overwrite
of the name binding. -/
def MultiState.add_ecu (s : MultiState) (name : String)
    (logical_address : Int) : MultiState :=
  { s with ecus :=
      (name, logical_address) :: s.ecus.filter (fun p => decide (p.1 ≠ name)) }

/-- `remove_ecu` (multi_ecu.py lines 77-90): if the name is registered,
delete it from the registry and from both caches; otherwise do
nothing. -/
def MultiState.remove_ecu (s : MultiState) (name : String) : MultiState :=
  if (s.ecus.lookup name).isSome then
    { s with
      ecus := s.ecus.filter (fun p => decide (p.1 ≠ name)),
      connections := s.connections.filter (fun p => decide (p.1 ≠ name)),
      clients := s.clients.filter (fun p => decide (p.1 ≠ name)) }
  else s

/-- `_ensure_connected` (multi_ecu.py lines 101-121): when not yet
connected, create the shared transport handle for the gateway and attempt
to connect it; the physical outcome of `connect()` is the environment
parameter `connectOk`. On failure the handle stays created, the connected
flag stays false, and a `ConnectionError` is reported. -/
def MultiState.ensure_connected (connectOk : Bool) (s : MultiState) :
    MultiState × Option UdsErr :=
  if s.connected then (s, none)
  else
    let s1 := { s with doipCreated := true }
    if connectOk then ({ s1 with connected := true }, none)
    else (s1, some (UdsErr.connectionError "Failed to connect to gateway"))

/-- `_get_client` (multi_ecu.py lines 123-154): raise `ECUNotFoundError`
for an unregistered name; return the cached client if present; otherwise
ensure the shared transport is connected, construct and open a new
connection targeted at the registered address (through the
`DoIPUDSConnection` constructor, whose gateway default address is 0x0001),
construct a new client, cache both, and return the client. Freshly
constructed objects receive the tags `nextId` and `nextId + 1`. -/
def MultiState.get_client (connectOk : Bool) (s : MultiState)
    (name : String) : MultiState × Except UdsErr Nat :=
  match s.ecus.lookup name with
  | none =>
      (s, Except.error (UdsErr.ecuNotFoundError
        ("ECU " ++ name ++ " not found in registry")))
  | some logical_address =>
    match s.clients.lookup name with
    | some cid => (s, Except.ok cid)
    | none =>
      match s.ensure_connected connectOk with
      | (s1, some e) => (s1, Except.error e)
      | (s1, none) =>
        let conn := (DoIPUDSConnection.init 0x0001 (some logical_address)).openConn
        ({ s1 with
            nextId := s1.nextId + 2,
            connections := (name, (s1.nextId, conn)) :: s1.connections,
            clients := (name, s1.nextId + 1) :: s1.clients },
          Except.ok (s1.nextId + 1))

/-- `close` (multi_ecu.py lines 194-213): try to close every cached
connection, swallowing each failure; if the handle exists and the client
is connected, try to disconnect it, swallowing failure, and clear the
connected flag; finally clear both caches. The environment parameters
`connCloseFails` and `disconnectFails` say which of those external calls
raise; the names of the suppressed failures are returned alongside the
state so that the oracle stays observable. -/
def MultiState.close (connCloseFails : String → Bool)
    (disconnectFails : Bool) (s : MultiState) : MultiState × List String :=
  let suppressed := (s.connections.filter (fun p => connCloseFails p.1)).map
    (fun p => p.1)
  let step :=
    if s.doipCreated && s.connected then
      (false, if disconnectFails then suppressed ++ ["disconnect"] else suppressed)
    else (s.connected, suppressed)
  ({ s with connections := [], clients := [], connected := step.1 }, step.2)

theorem lookup_filter_ne {β : Type} (l : List (String × β)) (name k : String)
    (hk : k ≠ name) :
    (l.filter (fun p => decide (p.1 ≠ name))).lookup k = l.lookup k := by
  induction l with
  | nil => rfl
  | cons p rest ih =>
    by_cases h1 : p.1 = name
    · rw [List.filter_cons_of_neg (by simp [h1])]
      have hne : (k == p.1) = false := beq_eq_false_iff_ne.mpr (h1 ▸ hk)
      rw [ih]
      simp only [List.lookup, hne]
    · rw [List.filter_cons_of_pos (by simp [h1])]
      by_cases h2 : k = p.1
      · have heq : (k == p.1) = true := beq_iff_eq.mpr h2
        simp only [List.lookup, heq]
      · have hne : (k == p.1) = false := beq_eq_false_iff_ne.mpr h2
        simp only [List.lookup, hne]
        exact ih

theorem lookup_filter_self {β : Type} (l : List (String × β)) (name : String) :
    (l.filter (fun p => decide (p.1 ≠ name))).lookup name = none := by
  induction l with
  | nil => rfl
  | cons p rest ih =>
    by_cases h1 : p.1 = name
    · rw [List.filter_cons_of_neg (by simp [h1])]
      exact ih
    · rw [List.filter_cons_of_pos (by simp [h1])]
      have hne : (name == p.1) = false :=
        beq_eq_false_iff_ne.mpr (fun h => h1 h.symm)
      simp only [List.lookup, hne]
      exact ih

theorem lookup_cons_self {β : Type} (l : List (String × β)) (k : String) (v : β) :
    ((k, v) :: l).lookup k = some v := by
  simp [List.lookup]

theorem lookup_cons_ne {β : Type} (l : List (String × β)) (k name : String)
    (v : β) (h : k ≠ name) : ((name, v) :: l).lookup k = l.lookup k := by
  have hne : (k == name) = false := beq_eq_false_iff_ne.mpr h
  simp [List.lookup, hne]

theorem ensure_connected_preserves (connectOk : Bool) (s : MultiState) :
    (s.ensure_connected connectOk).1.ecus = s.ecus ∧
    (s.ensure_connected connectOk).1.connections = s.connections ∧
    (s.ensure_connected connectOk).1.clients = s.clients := by
  unfold MultiState.ensure_connected
  by_cases h1 : s.connected = true
  · simp [h1]
  · by_cases h2 : connectOk = true <;> simp [h1, h2]

/-- Claim C4: if a `_get_client` call for a registered name succeeds,
returning the client tagged `cid` and leaving state `s1`, then a second
call on `s1` for the same name (with no intervening unregister) returns
that very same tag — the identical cached object — and changes nothing:
the session is constructed at most once and reused thereafter. -/
theorem get_client_cached_identity (s : MultiState) (name : String)
    (ok1 ok2 : Bool) (cid : Nat) (s1 : MultiState)
    (h : MultiState.get_client ok1 s name = (s1, Except.ok cid)) :
    MultiState.get_client ok2 s1 name = (s1, Except.ok cid) := by
  unfold MultiState.get_client at h
  split at h
  · simp at h
  · rename_i logical_address heq1
    split at h
    · rename_i c heq2
      simp only [Prod.mk.injEq, Except.ok.injEq] at h
      obtain ⟨rfl, rfl⟩ := h
      simp [MultiState.get_client, heq1, heq2]
    · rename_i heq2
      split at h
      · simp at h
      · rename_i s1' heq3
        simp only [Prod.mk.injEq, Except.ok.injEq] at h
        obtain ⟨rfl, rfl⟩ := h
        have hecus : s1'.ecus = s.ecus := by
          have := (ensure_connected_preserves ok1 s).1
          rw [heq3] at this
          exact this
        have hlook1 :
            (MultiState.ecus { s1' with
              nextId := s1'.nextId + 2,
              connections := (name, (s1'.nextId,
                (DoIPUDSConnection.init 0x0001 (some logical_address)).openConn))
                :: s1'.connections,
              clients := (name, s1'.nextId + 1) :: s1'.clients }).lookup name =
              some logical_address := by
          simpa [hecus] using heq1
        simp [MultiState.get_client, hlook1, lookup_cons_self]

/-- Witness for C4: a concrete registry with one registered ECU; the
first call constructs and caches the client with tag 1; the second call
returns tag 1 again on the unchanged state. -/
theorem get_client_cached_identity_w :
    MultiState.get_client true
        { ecus := [("engine", 0x00E0)],
          connections := [("engine", (0, ⟨0x00E0, true⟩))],
          clients := [("engine", 1)],
          doipCreated := true, connected := true, nextId := 2 } "engine" =
      ({ ecus := [("engine", 0x00E0)],
          connections := [("engine", (0, ⟨0x00E0, true⟩))],
          clients := [("engine", 1)],
          doipCreated := true, connected := true, nextId := 2 },
        Except.ok 1) :=
  get_client_cached_identity
    (MultiState.add_ecu MultiState.init "engine" 0x00E0) "engine" true true 1 _
    rfl

theorem close_state (f : String → Bool) (d : Bool) (s : MultiState) :
    (MultiState.close f d s).1 =
      { s with
        connections := []
        clients := []
        connected := if s.doipCreated && s.connected then false
                     else s.connected } := by
  unfold MultiState.close
  by_cases hc : (s.doipCreated && s.connected) = true <;> simp [hc]

/-- Claim C6: `close()` empties both caches; under the reachability fact
that the connected flag implies the transport handle exists, it clears
the connected flag; the resulting state does not depend on which external
close or disconnect calls fail (best-effort teardown, no fault escapes);
and a second `close()` changes nothing (idempotence). All of this also
holds for a never-connected registry. -/
theorem close_teardown (s : MultiState) (f1 f2 : String → Bool) (d1 d2 : Bool)
    (hreach : s.connected = true → s.doipCreated = true) :
    (MultiState.close f1 d1 s).1.connections = [] ∧
    (MultiState.close f1 d1 s).1.clients = [] ∧
    (MultiState.close f1 d1 s).1.connected = false ∧
    (MultiState.close f1 d1 s).1 = (MultiState.close f2 d2 s).1 ∧
    (MultiState.close f2 d2 (MultiState.close f1 d1 s).1).1 =
      (MultiState.close f1 d1 s).1 := by
  have hconn : (MultiState.close f1 d1 s).1.connected = false := by
    rw [close_state]
    by_cases hc : s.connected = true
    · simp [hreach hc, hc]
    · simp only [Bool.not_eq_true] at hc
      simp [hc]
  refine ⟨by rw [close_state], by rw [close_state], hconn, ?_, ?_⟩
  · rw [close_state f1 d1, close_state f2 d2]
  · rw [close_state f2 d2, close_state f1 d1]
    cases hdc : s.doipCreated <;> cases hcn : s.connected <;> simp [hdc, hcn]

/-- Witness for C6 at a connected registry with one cached session, a
failing per-connection close and a failing disconnect. -/
theorem close_teardown_w :
    (MultiState.close (fun _ => true) true
        { ecus := [("engine", 0x00E0)],
          connections := [("engine", (0, ⟨0x00E0, true⟩))],
          clients := [("engine", 1)],
          doipCreated := true, connected := true, nextId := 2 }).1.connections
      = ([] : List (String × (Nat × DoIPUDSConnection))) ∧
    (MultiState.close (fun _ => true) true
        { ecus := [("engine", 0x00E0)],
          connections := [("engine", (0, ⟨0x00E0, true⟩))],
          clients := [("engine", 1)],
          doipCreated := true, connected := true, nextId := 2 }).1.clients
      = ([] : List (String × Nat)) ∧
    (MultiState.close (fun _ => true) true
        { ecus := [("engine", 0x00E0)],
          connections := [("engine", (0, ⟨0x00E0, true⟩))],
          clients := [("engine", 1)],
          doipCreated := true, connected := true, nextId := 2 }).1.connected
      = false :=
  ⟨(close_teardown
      { ecus := [("engine", 0x00E0)],
        connections := [("engine", (0, ⟨0x00E0, true⟩))],
        clients := [("engine", 1)],
        doipCreated := true, connected := true, nextId := 2 }
      (fun _ => true) (fun _ => true) true true (fun _ => rfl)).1,
   (close_teardown
      { ecus := [("engine", 0x00E0)],
        connections := [("engine", (0, ⟨0x00E0, true⟩))],
        clients := [("engine", 1)],
        doipCreated := true, connected := true, nextId := 2 }
      (fun _ => true) (fun _ => true) true true (fun _ => rfl)).2.1,
   (close_teardown
      { ecus := [("engine", 0x00E0)],
        connections := [("engine", (0, ⟨0x00E0, true⟩))],
        clients := [("engine", 1)],
        doipCreated := true, connected := true, nextId := 2 }
      (fun _ => true) (fun _ => true) true true (fun _ => rfl)).2.2.1⟩

/-- The cache invariant of the registry: a cached connection or client
exists only for a name present in the name-to-address registry. -/
def cacheOk (s : MultiState) : Prop :=
  (∀ p ∈ s.connections, (s.ecus.lookup p.1).isSome = true) ∧
  (∀ p ∈ s.clients, (s.ecus.lookup p.1).isSome = true)

theorem cacheOk_add_ecu (s : MultiState) (h : cacheOk s) (name : String)
    (addr : Int) : cacheOk (s.add_ecu name addr) := by
  obtain ⟨h1, h2⟩ := h
  constructor <;> intro p hp
  · by_cases hn : p.1 = name
    · simp [MultiState.add_ecu, hn, lookup_cons_self]
    · simp only [MultiState.add_ecu]
      rw [lookup_cons_ne _ _ _ _ hn, lookup_filter_ne _ _ _ hn]
      exact h1 p hp
  · by_cases hn : p.1 = name
    · simp [MultiState.add_ecu, hn, lookup_cons_self]
    · simp only [MultiState.add_ecu]
      rw [lookup_cons_ne _ _ _ _ hn, lookup_filter_ne _ _ _ hn]
      exact h2 p hp

theorem cacheOk_remove_ecu (s : MultiState) (h : cacheOk s) (name : String) :
    cacheOk (s.remove_ecu name) := by
  obtain ⟨h1, h2⟩ := h
  unfold MultiState.remove_ecu
  by_cases hreg : (s.ecus.lookup name).isSome = true
  · simp only [hreg, if_pos]
    constructor <;> intro p hp
    · rw [List.mem_filter] at hp
      obtain ⟨hp1, hp2⟩ := hp
      rw [lookup_filter_ne _ _ _ (by simpa using hp2)]
      exact h1 p hp1
    · rw [List.mem_filter] at hp
      obtain ⟨hp1, hp2⟩ := hp
      rw [lookup_filter_ne _ _ _ (by simpa using hp2)]
      exact h2 p hp1
  · simp only [hreg]
    exact ⟨h1, h2⟩

theorem remove_ecu_lookup_none (s : MultiState) (name : String) :
    ((s.remove_ecu name).ecus.lookup name) = none := by
  unfold MultiState.remove_ecu
  by_cases hreg : (s.ecus.lookup name).isSome = true
  · simp only [hreg, if_pos]
    exact lookup_filter_self _ _
  · simp only [hreg]
    exact Option.not_isSome_iff_eq_none.mp hreg

theorem cacheOk_get_client (s : MultiState) (h : cacheOk s)
    (connectOk : Bool) (name : String) :
    cacheOk (s.get_client connectOk name).1 := by
  obtain ⟨h1, h2⟩ := h
  unfold MultiState.get_client
  split
  · exact ⟨h1, h2⟩
  · rename_i logical_address heq1
    split
    · exact ⟨h1, h2⟩
    · rename_i heq2
      split
      · rename_i s1 e heq3
        have hpres := ensure_connected_preserves connectOk s
        rw [heq3] at hpres
        obtain ⟨he, hc, hcl⟩ := hpres
        exact ⟨fun p hp => by rw [he]; exact h1 p (hc ▸ hp),
               fun p hp => by rw [he]; exact h2 p (hcl ▸ hp)⟩
      · rename_i s1 heq3
        have hpres := ensure_connected_preserves connectOk s
        rw [heq3] at hpres
        obtain ⟨he, hc, hcl⟩ := hpres
        constructor <;> intro p hp <;> simp only [] at hp ⊢
        · rcases List.mem_cons.mp hp with hhd | htl
          · rw [he, hhd]
            simp [heq1]
          · rw [he]
            exact h1 p (hc ▸ htl)
        · rcases List.mem_cons.mp hp with hhd | htl
          · rw [he, hhd]
            simp [heq1]
          · rw [he]
            exact h2 p (hcl ▸ htl)

theorem cacheOk_close (s : MultiState) (f : String → Bool) (d : Bool) :
    cacheOk (MultiState.close f d s).1 := by
  rw [close_state]
  exact ⟨fun p hp => by simp at hp, fun p hp => by simp at hp⟩

/-- Claim C7: the cache invariant — a cache entry exists only for a
registered name — is preserved by register, unregister, session lookup
and teardown; and after `remove_ecu name` a `_get_client name` call
fails with `ECUNotFoundError`. -/
theorem registry_cache_invariant (s : MultiState) (h : cacheOk s)
    (name : String) (addr : Int) (connectOk : Bool)
    (f : String → Bool) (d : Bool) :
    cacheOk (s.add_ecu name addr) ∧
    cacheOk (s.remove_ecu name) ∧
    cacheOk (s.get_client connectOk name).1 ∧
    cacheOk (MultiState.close f d s).1 ∧
    (MultiState.get_client connectOk (s.remove_ecu name) name).2 =
      Except.error (UdsErr.ecuNotFoundError
        ("ECU " ++ name ++ " not found in registry")) := by
  refine ⟨cacheOk_add_ecu s h name addr, cacheOk_remove_ecu s h name,
    cacheOk_get_client s h connectOk name, cacheOk_close s f d, ?_⟩
  have hnone := remove_ecu_lookup_none s name
  simp [MultiState.get_client, hnone]

/-- Witness for C7 at a concrete one-ECU registry: after registering and
then unregistering the name engine, requesting its session fails with
`ECUNotFoundError`. -/
theorem registry_cache_invariant_w :
    (MultiState.get_client true
        (MultiState.remove_ecu
          (MultiState.add_ecu MultiState.init "engine" 0x00E0) "engine")
        "engine").2 =
      Except.error (UdsErr.ecuNotFoundError
        ("ECU " ++ "engine" ++ " not found in registry")) :=
  (registry_cache_invariant
    (MultiState.add_ecu MultiState.init "engine" 0x00E0)
    (by unfold cacheOk; decide) "engine" 0 true (fun _ => false)
    false).2.2.2.2

/-- Default keyword-argument values of `DoIPUDSClient.__init__`
(client.py lines 39-50): client logical address, activation type and
protocol version as written in the signature. -/
structure ClientInitDefaults where
  client_logical_address : Int
  activation_type : Int
  protocol_version : Int
deriving DecidableEq, Repr

def clientInitDefaults : ClientInitDefaults :=
  { client_logical_address := 0x0E00, activation_type := 0,
    protocol_version := 0x02 }

/-- Default keyword-argument values of a discovery entry point: its
timeout in seconds (an exact decimal literal, modelled as a rational) and
its protocol version. -/
structure DiscoveryDefaults where
  timeout : ℚ
  protocol_version : Int
deriving DecidableEq, Repr

/-- Defaults of `discover_ecus` (discovery.py lines 58-62). -/
def discoverEcusDefaults : DiscoveryDefaults :=
  { timeout := 5, protocol_version := 0x03 }

/-- Defaults of `get_entity` (discovery.py lines 134-138). -/
def getEntityDefaults : DiscoveryDefaults :=
  { timeout := 2, protocol_version := 0x03 }

/-- Claim C9, evaluation of the code: the defaults are client logical
address 0x0E00, activation type 0, discovery timeout 5.0 s, per-probe
timeout 2.0 s, and protocol version 0x03 for both discovery entry
points — but the client constructor defaults its protocol version to
0x02, not 0x03. -/
theorem entry_point_defaults :
    clientInitDefaults.client_logical_address = 0x0E00 ∧
    clientInitDefaults.activation_type = 0 ∧
    discoverEcusDefaults.timeout = 5 ∧
    discoverEcusDefaults.protocol_version = 0x03 ∧
    getEntityDefaults.timeout = 2 ∧
    getEntityDefaults.protocol_version = 0x03 ∧
    clientInitDefaults.protocol_version = 0x02 ∧
    clientInitDefaults.protocol_version ≠ 0x03 :=
  ⟨rfl, rfl, rfl, rfl, rfl, rfl, rfl, by decide⟩

end UdsOnIp
